import Mathlib

/-
Verification of the per-frame rendering core of the unrust engine
(src/engine/engine.rs): the resource identity cache, the texture-unit
allocator, the light collector, render-command gathering, transparent-queue
sorting, and the per-queue draw loop.

Modelling conventions.  Machine floats (f32) are modelled as `Option Int`:
`none` is NaN, `some q` a finite value (rounding, fractional values and
infinities are not modelled; no statement below depends on them).  `Rc`/`Arc` identities are
modelled as natural-number ids; a weak reference is an id together with a
liveness oracle `live : Nat → Bool` giving the outcome of `upgrade()` at the
instant of the call (the scene is single-threaded, so liveness is fixed
within one call).  A Rust panic is modelled as the `none` result of an
`Option`-valued function.  Types that live outside `src/engine/engine.rs`
(the component/asset/render support types) are modelled from the spec and
say so in their doc comments.
-/

namespace Unrust

/-- Machine float as used for camera distances: `none` is NaN, `some q` a
finite value.  Finite values are carried as integers: every statement below
depends only on ordering and on the sum-of-squares shape of the distance,
never on fractional values, and integer arithmetic is kernel-computable. -/
abbrev Flt := Option Int

def fadd (a b : Flt) : Flt :=
  match a, b with
  | some x, some y => some (x + y)
  | _, _ => none

def fsub (a b : Flt) : Flt :=
  match a, b with
  | some x, some y => some (x - y)
  | _, _ => none

def fmul (a b : Flt) : Flt :=
  match a, b with
  | some x, some y => some (x * y)
  | _, _ => none

/-- `f32::partial_cmp`: `None` whenever either side is NaN. -/
def fcmp (a b : Flt) : Option Ordering :=
  match a, b with
  | some x, some y =>
      some (if x < y then Ordering.lt else if y < x then Ordering.gt else Ordering.eq)
  | _, _ => none

abbrev Vector3 := Flt × Flt × Flt

def vsub (a b : Vector3) : Vector3 :=
  (fsub a.1 b.1, fsub a.2.1 b.2.1, fsub a.2.2 b.2.2)

/-- `Vector3::norm_squared`: sum of squares of the components. -/
def normSq (v : Vector3) : Flt :=
  fadd (fmul v.1 v.1) (fadd (fmul v.2.1 v.2.1) (fmul v.2.2 v.2.2))

/-- A resolved 4x4 world matrix.  The scene-graph math producing it is out of
scope (the core only consumes the resulting matrix), so entries are carried
opaquely. -/
abbrev Matrix4 := List Flt

/-- Modelled from the spec: the error taxonomy of `AssetError`
(engine::asset, not under src/) as the core observes it: `NotReady`
(dependency not loaded yet, recoverable) and a fatal bind failure carrying a
diagnostic code. -/
inductive AssetError
  | NotReady
  | BindFailure (code : Nat)
deriving DecidableEq

/-- Rust `AssetResult<α> = Result<α, AssetError>`. -/
inductive AssetResult (α : Type)
  | ok (a : α)
  | error (e : AssetError)
deriving DecidableEq

/-- Modelled from the spec: the queue tags of `RenderQueue` (engine::render,
not under src/), in their declaration (and hence `BTreeMap`) order. -/
inductive RenderQueue
  | Opaque
  | Skybox
  | Transparent
deriving DecidableEq

/-- Modelled from the spec: `Material` (engine::render, not under src/):
shader program handle, a render-queue tag, and the texture handles of its
(slot, texture) bindings in declared order. -/
structure Material where
  program : Nat
  render_queue : RenderQueue
  textures : List Nat
deriving DecidableEq

/-- Modelled from the spec: `MeshSurface` (engine::render, not under src/):
a (buffer handle, material handle) pair. -/
structure MeshSurface where
  buffer : Nat
  material : Material
deriving DecidableEq

/-- Modelled from the spec: `Mesh` (engine::render, not under src/): an
ordered sequence of surfaces. -/
structure Mesh where
  surfaces : List MeshSurface
deriving DecidableEq

/-- Modelled from the spec: the payload of a directional light.  The exact
numeric constants of `Directional::default()` live in engine::render (not
under src/); what the core relies on is that the default is one fixed
value, represented here by a fixed downward-forward direction and fixed
coefficients. -/
structure DirectionalData where
  direction : Vector3
  ambient : Flt
  diffuse : Flt
  specular : Flt
deriving DecidableEq

def DirectionalData.default : DirectionalData :=
  { direction := (some 0, some (-1), some (-1))
    ambient := some 1
    diffuse := some 1
    specular := some 1 }

/-- Modelled from the spec: the payload of a point light (engine::render,
not under src/). -/
structure PointData where
  position : Vector3
deriving DecidableEq

/-- Modelled from the spec: `Light` (engine::render, not under src/), with
variants Directional and Point. -/
inductive Light
  | Directional (d : DirectionalData)
  | Point (p : PointData)
deriving DecidableEq

/-- Modelled from the spec: the closed capability set of `Component`
(engine::core, not under src/): Mesh, Light, Camera. -/
inductive ComponentData
  | light (l : Light)
  | mesh (m : Mesh)
  | camera
deriving DecidableEq

inductive CKind
  | KLight
  | KMesh
  | KCamera
deriving DecidableEq

def componentKind : ComponentData → CKind
  | .light _ => .KLight
  | .mesh _ => .KMesh
  | .camera => .KCamera

/-- Modelled from the spec: the consumed part of a scene-graph `Transform`
(engine::core, not under src/): the resolved global world matrix
(`as_global_matrix`) and the global translation (`global().translation.vector`). -/
structure Transform where
  global_matrix : Matrix4
  translation : Vector3
deriving DecidableEq

/-- Modelled from the spec: `GameObject` (engine::core, not under src/):
active flag, ordered component list, transform. -/
structure GameObject where
  active : Bool
  components : List ComponentData
  transform : Transform
deriving DecidableEq

/-- Modelled from the spec: `GameObject::find_component::<T>` (engine::core,
not under src/) returns the first component of the requested capability in
the object's ordered component list. -/
def GameObject.find_component (o : GameObject) (k : CKind) : Option ComponentData :=
  o.components.find? (fun c => componentKind c == k)

/-- One entry of `Engine::objects` (a `Weak<RefCell<GameObject>>`) at the
instant it is visited: the weak reference may have expired (`gone`), the
`RefCell` may be borrowed elsewhere so `try_borrow` fails (`locked`), or the
object is available (`avail`). -/
inductive ObjSlot
  | gone
  | locked (o : GameObject)
  | avail (o : GameObject)
deriving DecidableEq

/-- `obj.upgrade().and_then(|o| o.try_borrow().ok())`. -/
def slotGet : ObjSlot → Option GameObject
  | .avail o => some o
  | _ => none

/-- `Weak::upgrade` under the liveness oracle: a stored weak reference is an
optional id (`none` is the dangling `Weak::new()` of `Default`), and an id
upgrades only while the oracle says it is live. -/
def upgradeW (live : Nat → Bool) (w : Option Nat) : Option Nat :=
  w.bind (fun i => if live i then some i else none)

def MAX_TEXTURE_UNITS : Nat := 8

/-- `EngineContext` (engine.rs:53-64): the per-pass mutable cache. -/
structure EngineContext where
  mesh_buffer : Option Nat
  prog : Option Nat
  textures : List (Nat × Nat)
  main_light : Option ComponentData
  point_lights : List ComponentData
  switch_mesh : Nat
  switch_prog : Nat
  switch_tex : Nat
deriving DecidableEq

/-- `EngineContext::default()`: all caches empty, counters zero. -/
def defaultCtx : EngineContext :=
  { mesh_buffer := none
    prog := none
    textures := []
    main_light := none
    point_lights := []
    switch_mesh := 0
    switch_prog := 0
    switch_tex := 0 }

/-- The two resource categories served by `prepare_cache` through the
`EngineCacher` trait (engine.rs:76-81): the shader program and the mesh
buffer caches. -/
inductive CacheKind
  | Prog
  | MeshBuf
deriving DecidableEq

def getCache (k : CacheKind) (ctx : EngineContext) : Option Nat :=
  match k with
  | .Prog => ctx.prog
  | .MeshBuf => ctx.mesh_buffer

def setCache (k : CacheKind) (w : Option Nat) (ctx : EngineContext) : EngineContext :=
  match k with
  | .Prog => { ctx with prog := w }
  | .MeshBuf => { ctx with mesh_buffer := w }

/-- `EngineContext::need_cache` (engine.rs:140-148): a rebind is needed when
the cached weak reference is dangling or expired, or points at a different
identity. -/
def EngineContext.need_cache (ctx : EngineContext) (k : CacheKind) (live : Nat → Bool)
    (new_p : Nat) : Bool :=
  match upgradeW live (getCache k ctx) with
  | none => true
  | some p => !(new_p == p)

/-- `EngineContext::prepare_cache` (engine.rs:86-97): bind only if different;
on bind success record the new identity, on failure propagate the error. -/
def EngineContext.prepare_cache (ctx : EngineContext) (k : CacheKind) (live : Nat → Bool)
    (new_p : Nat) (bind : EngineContext → AssetResult Unit × EngineContext) :
    AssetResult Unit × EngineContext :=
  if ctx.need_cache k live new_p then
    match bind ctx with
    | (.ok _, c2) => (.ok (), setCache k (some new_p) c2)
    | (.error e, c2) => (.error e, c2)
  else (.ok (), ctx)

/-- `EngineContext::need_cache_tex` (engine.rs:99-109): scan the unit queue
front to back for an unexpired entry with the requested identity. -/
def EngineContext.need_cache_tex (ctx : EngineContext) (live : Nat → Bool)
    (new_tex : Nat) : Option Nat :=
  ctx.textures.findSome? (fun p => if live p.2 && p.2 == new_tex then some p.1 else none)

/-- Remove the first entry of the unit queue whose texture has expired,
returning its unit; `none` when every entry is live.  Mirrors
`self.textures.iter().position(|&(_, ref t)| t.upgrade().is_none())`
followed by `self.textures.remove(pos)` (engine.rs:124-129). -/
def removeFirstExpired (live : Nat → Bool) : List (Nat × Nat) → Option (Nat × List (Nat × Nat))
  | [] => none
  | e :: rest =>
      if live e.2 then
        (removeFirstExpired live rest).map (fun r => (r.1, e :: r.2))
      else some (e.1, rest)

/-- The eviction of engine.rs:123-132: prefer the first expired slot, else
pop the front (least-recently-assigned) entry.  Only called on a queue of
length ≥ `MAX_TEXTURE_UNITS` > 0, so the `[]` case is unreachable. -/
def evictSlot (live : Nat → Bool) (ts : List (Nat × Nat)) : Nat × List (Nat × Nat) :=
  match removeFirstExpired live ts with
  | some r => r
  | none =>
      match ts with
      | [] => (0, [])
      | e :: rest => (e.1, rest)

/-- `EngineContext::prepare_cache_tex` (engine.rs:111-138). -/
def EngineContext.prepare_cache_tex (ctx : EngineContext) (live : Nat → Bool) (new_tex : Nat)
    (bind_func : EngineContext → Nat → AssetResult Unit × EngineContext) :
    AssetResult Nat × EngineContext :=
  match ctx.need_cache_tex live new_tex with
  | some t => (.ok t, ctx)
  | none =>
      let n := ctx.textures.length
      let r :=
        if MAX_TEXTURE_UNITS ≤ n then
          let ev := evictSlot live ctx.textures
          (ev.1, { ctx with textures := ev.2 })
        else (n, ctx)
      match bind_func r.2 r.1 with
      | (.ok _, c2) => (.ok r.1, { c2 with textures := c2.textures ++ [(r.1, new_tex)] })
      | (.error e, c2) => (.error e, c2)

/-- The per-category bind-switch counter (`switch_prog` / `switch_mesh`),
the source's own count of how often the underlying bind was invoked. -/
def switchCount (k : CacheKind) (ctx : EngineContext) : Nat :=
  match k with
  | .Prog => ctx.switch_prog
  | .MeshBuf => ctx.switch_mesh

def incSwitch (k : CacheKind) (ctx : EngineContext) : EngineContext :=
  match k with
  | .Prog => { ctx with switch_prog := ctx.switch_prog + 1 }
  | .MeshBuf => { ctx with switch_mesh := ctx.switch_mesh + 1 }

/-- The bind closures passed to `prepare_cache` in the source: the program
closure (engine.rs:308-312) and the mesh-buffer closure (engine.rs:389-393).
`r` is the outcome of the underlying GPU/asset bind; on success the
category's switch counter is incremented, on failure nothing is touched. -/
def cacheBindAction (k : CacheKind) (r : AssetResult Unit) :
    EngineContext → AssetResult Unit × EngineContext := fun ctx =>
  match r with
  | .ok _ => (.ok (), incSwitch k ctx)
  | .error e => (.error e, ctx)

/-- The bind closure passed to `prepare_cache_tex` (engine.rs:317-323):
`tex.bind(&self.gl, unit)?` then `ctx.switch_tex += 1`. -/
def texBindAction (r : AssetResult Unit) :
    EngineContext → Nat → AssetResult Unit × EngineContext := fun ctx _ =>
  match r with
  | .ok _ => (.ok (), { ctx with switch_tex := ctx.switch_tex + 1 })
  | .error e => (.error e, ctx)

/-- A sequence of commands bound through `prepare_cache` for one category,
each with a successful underlying bind (outcome `ok`). -/
def prepareCacheSeq (k : CacheKind) (live : Nat → Bool) :
    List Nat → EngineContext → EngineContext
  | [], ctx => ctx
  | p :: ps, ctx =>
      prepareCacheSeq k live ps (ctx.prepare_cache k live p (cacheBindAction k (.ok ()))).2

/-- A sequence of texture-unit assignments within one frame, each request a
texture id together with the liveness oracle at the instant of that call;
every underlying bind succeeds. -/
def assignSeq : List (Nat × (Nat → Bool)) → EngineContext → EngineContext
  | [], ctx => ctx
  | r :: rest, ctx =>
      assignSeq rest (ctx.prepare_cache_tex r.2 r.1 (texBindAction (.ok ()))).2

/-- The reachable-state invariant of the texture-unit queue: at most
`MAX_TEXTURE_UNITS` entries, the units are exactly `0..len` while below
capacity, and they are pairwise distinct and below capacity always. -/
def TexInv (ctx : EngineContext) : Prop :=
  ctx.textures.length ≤ MAX_TEXTURE_UNITS ∧
  (ctx.textures.length < MAX_TEXTURE_UNITS →
    ctx.textures.map Prod.fst = List.range ctx.textures.length) ∧
  (ctx.textures.map Prod.fst).Nodup ∧
  ∀ u ∈ ctx.textures.map Prod.fst, u < MAX_TEXTURE_UNITS

instance (ctx : EngineContext) : Decidable (TexInv ctx) := by
  unfold TexInv
  infer_instance

/-- `Engine::find_component::<T>` via `map_component` (engine.rs:410-454):
visit the object list in order, skip expired or contention-locked objects,
and return the first object's first component of the requested kind. -/
def engineFindComponent (k : CKind) (objs : List ObjSlot) : Option ComponentData :=
  objs.findSome? (fun s => (slotGet s).bind (fun o => o.find_component k))

/-- `Engine::find_all_components::<T>` (engine.rs:430-441): every visited
object contributes its first component of the requested kind. -/
def engineFindAllComponents (k : CKind) (objs : List ObjSlot) : List ComponentData :=
  objs.filterMap (fun s => (slotGet s).bind (fun o => o.find_component k))

/-- The point-light filter of `prepare_ctx` (engine.rs:465-471). -/
def isPointLight (c : ComponentData) : Bool :=
  match c with
  | .light (Light.Point _) => true
  | _ => false

/-- `Engine::prepare_ctx` (engine.rs:456-474): the light-gathering step. -/
def prepare_ctx (objs : List ObjSlot) (ctx : EngineContext) : EngineContext :=
  { ctx with
    main_light := some ((engineFindComponent .KLight objs).getD
      (ComponentData.light (Light.Directional DirectionalData.default)))
    point_lights := ((engineFindAllComponents .KLight objs).filter isPointLight).take 4 }

/-- `RenderCommand` (engine.rs:151-155). -/
structure RenderCommand where
  surface : MeshSurface
  model_m : Matrix4
  cam_distance : Flt
deriving DecidableEq

/-- `DepthTest` (engine.rs:158-173); `Default` is `Less`. -/
inductive DepthTest
  | Never
  | Less
  | Equal
  | LessEqual
  | Greater
  | NotEqual
  | GreaterEqual
  | Always
deriving DecidableEq

/-- `RenderQueueState` (engine.rs:190-196). -/
structure RenderQueueState where
  depth_write : Bool
  depth_test : Bool
  depth_func : DepthTest
  commands : List RenderCommand
deriving DecidableEq

/-- One step of the comparator-driven insertion modelling
`sort_unstable_by` with the closure of engine.rs:200-205: the comparator on
a pair `(a, b)` is `b.cam_distance.partial_cmp(&a.cam_distance).unwrap()`,
and `unwrap` of `None` (a NaN on either side) is a panic, modelled as
`none`. -/
def insertDesc (c : RenderCommand) : List RenderCommand → Option (List RenderCommand)
  | [] => some [c]
  | x :: xs =>
      match fcmp x.cam_distance c.cam_distance with
      | none => none
      | some Ordering.gt => (insertDesc c xs).map (fun l => x :: l)
      | some _ => some (c :: x :: xs)

def sortLoop : List RenderCommand → List RenderCommand → Option (List RenderCommand)
  | acc, [] => some acc
  | acc, c :: rest =>
      match insertDesc c acc with
      | none => none
      | some acc2 => sortLoop acc2 rest

/-- The sort of `RenderQueueState::sort_by_cam_distance` (engine.rs:198-207)
on the command list: descending by camera distance; `none` models the panic
of `partial_cmp(..).unwrap()` on a NaN comparison. -/
def sortCmds (cmds : List RenderCommand) : Option (List RenderCommand) :=
  sortLoop [] cmds

def sort_by_cam_distance (q : RenderQueueState) : Option RenderQueueState :=
  (sortCmds q.commands).map (fun cs => { q with commands := cs })

/-- The descending-distance order the Transparent queue is sorted into
(on NaN-free queues `getD` reads off the finite value). -/
def dge (a b : RenderCommand) : Prop :=
  b.cam_distance.getD 0 ≤ a.cam_distance.getD 0

/-- `RenderQueueList` (engine.rs:209-234): a `BTreeMap` holding exactly the
three fixed tags, modelled as a total map. -/
abbrev RenderQueueList := RenderQueue → RenderQueueState

/-- `RenderQueueList::new` (engine.rs:213-233). -/
def RenderQueueList.new : RenderQueueList := fun k =>
  match k with
  | .Opaque =>
      { depth_write := true, depth_test := true, depth_func := .Less, commands := [] }
  | .Skybox =>
      { depth_write := false, depth_test := true, depth_func := .LessEqual, commands := [] }
  | .Transparent =>
      { depth_write := false, depth_test := true, depth_func := .Less, commands := [] }

/-- `q.commands.push(cmd)` on the queue of the given tag. -/
def pushCmd (rq : RenderQueueList) (k : RenderQueue) (c : RenderCommand) : RenderQueueList :=
  fun k2 =>
    if k2 == k then
      { rq k with commands := (rq k).commands ++ [c] }
    else rq k2

/-- `compute_model_m` (engine.rs:250-252). -/
def compute_model_m (o : GameObject) : Matrix4 :=
  o.transform.global_matrix

/-- The Render Command built for one surface by `gather_render_commands`
(engine.rs:489-500): the surface, the world matrix resolved at gather time,
and the squared distance from the camera position to the object's global
translation. -/
def mkCmd (o : GameObject) (cam_pos : Vector3) (surface : MeshSurface) : RenderCommand :=
  { surface := surface
    model_m := compute_model_m o
    cam_distance := normSq (vsub cam_pos o.transform.translation) }

/-- `Engine::gather_render_commands` (engine.rs:476-502). -/
def gather_render_commands (o : GameObject) (cam_pos : Vector3) (rq : RenderQueueList) :
    RenderQueueList :=
  if !o.active then rq
  else
    match o.find_component .KMesh with
    | some (ComponentData.mesh m) =>
        m.surfaces.foldl
          (fun acc surface => pushCmd acc surface.material.render_queue (mkCmd o cam_pos surface))
          rq
    | _ => rq

/-- The gather loop of `render_pass` (engine.rs:529-536): visit every entry
of `Engine::objects`, skipping expired weaks and contended borrows. -/
def gatherAll (objs : List ObjSlot) (cam_pos : Vector3) : RenderQueueList :=
  objs.foldl
    (fun rq s =>
      match slotGet s with
      | some o => gather_render_commands o cam_pos rq
      | none => rq)
    RenderQueueList.new

/-- The queue-preparation part of `render_pass` (engine.rs:527-542): gather
all commands, then sort only the Transparent queue; `none` models the panic
of the NaN comparator inside the sort. -/
def renderPassQueues (objs : List ObjSlot) (cam_pos : Vector3) : Option RenderQueueList :=
  let rq := gatherAll objs cam_pos
  match sort_by_cam_distance (rq RenderQueue.Transparent) with
  | none => none
  | some tq => some (fun k => if k == RenderQueue.Transparent then tq else rq k)

/-- Modelled from the spec: `Material::bind` (engine::render, not under
src/) invokes the supplied per-texture action on each texture binding in
declared order, propagating the first failure — here instantiated, as at
engine.rs:316-324, with `prepare_cache_tex` and the texture bind closure.
`tr` gives each texture's underlying bind outcome (its readiness). -/
def materialBindTexs (tr : Nat → AssetResult Unit) (live : Nat → Bool) :
    List Nat → EngineContext → AssetResult Unit × EngineContext
  | [], ctx => (.ok (), ctx)
  | t :: ts, ctx =>
      match ctx.prepare_cache_tex live t (texBindAction (tr t)) with
      | (.ok _, c2) => materialBindTexs tr live ts c2
      | (.error e, c2) => (.error e, c2)

/-- The unwraps of `setup_light` (engine.rs:351-363) succeed exactly when
the main-light slot holds a light component and every collected point light
is a light component. -/
def setupLightOk (ctx : EngineContext) : Bool :=
  (match ctx.main_light with
   | some (ComponentData.light _) => true
   | _ => false) &&
  ctx.point_lights.all (fun c =>
    match c with
    | ComponentData.light _ => true
    | _ => false)

/-- `Engine::setup_material` (engine.rs:307-329).  `pr`/`tr` give the
underlying bind outcome of each shader program / texture (its readiness);
the outer `none` models the panics of the internal unwraps
(`ctx.prog.upgrade().unwrap()` at engine.rs:314 and the unwraps of
`setup_light`), the inner `AssetResult` is the function's return value. -/
def setup_material (pr tr : Nat → AssetResult Unit) (live : Nat → Bool)
    (material : Material) (ctx : EngineContext) :
    Option (AssetResult Unit × EngineContext) :=
  match ctx.prepare_cache .Prog live material.program
      (cacheBindAction .Prog (pr material.program)) with
  | (.error e, c2) => some (.error e, c2)
  | (.ok _, c2) =>
      match upgradeW live (getCache .Prog c2) with
      | none => none
      | some _ =>
          match materialBindTexs tr live material.textures c2 with
          | (.error e, c3) => some (.error e, c3)
          | (.ok _, c3) => if setupLightOk c3 then some (.ok (), c3) else none

/-- The per-queue draw loop of `Engine::render_commands` (engine.rs:366-408)
over a command list.  `pr`/`tr`/`br` give the underlying bind outcomes of
programs, textures and mesh buffers.  The result is the final context and
the surfaces actually drawn, in order; `none` models a panic (a fatal
non-`NotReady` bind failure, engine.rs:384 and 404, or an internal
unwrap). -/
def renderLoop (pr tr br : Nat → AssetResult Unit) (live : Nat → Bool) :
    List RenderCommand → EngineContext → Option (EngineContext × List MeshSurface)
  | [], ctx => some (ctx, [])
  | cmd :: rest, ctx =>
      match setup_material pr tr live cmd.surface.material ctx with
      | none => none
      | some (.error AssetError.NotReady, c2) => renderLoop pr tr br live rest c2
      | some (.error _, _) => none
      | some (.ok _, c2) =>
          match upgradeW live (getCache .Prog c2) with
          | none => none
          | some _ =>
              match c2.prepare_cache .MeshBuf live cmd.surface.buffer
                  (cacheBindAction .MeshBuf (br cmd.surface.buffer)) with
              | (.ok _, c3) =>
                  match renderLoop pr tr br live rest c3 with
                  | none => none
                  | some r => some (r.1, cmd.surface :: r.2)
              | (.error AssetError.NotReady, c3) => renderLoop pr tr br live rest c3
              | (.error _, _) => none

/-- Whether an optional component is a Light of the Directional variant. -/
def comIsDirectional : Option ComponentData → Bool
  | some (ComponentData.light (Light.Directional _)) => true
  | _ => false

/- Concrete fixtures used in the closed statements below. -/

/-- A transparent-queue render command with buffer id `i` and the given
camera distance. -/
def cmdDist (i : Nat) (d : Flt) : RenderCommand :=
  { surface :=
      { buffer := i
        material := { program := 0, render_queue := RenderQueue.Transparent, textures := [] } }
    model_m := []
    cam_distance := d }

/-- A point-light component at x-coordinate `i`. -/
def pLight (i : Int) : ComponentData :=
  ComponentData.light (Light.Point { position := (some i, some 0, some 0) })

/-- A live, borrowable object carrying exactly one point-light component. -/
def pObj (i : Int) : ObjSlot :=
  ObjSlot.avail
    { active := true
      components := [pLight i]
      transform := { global_matrix := [], translation := (some 0, some 0, some 0) } }

/-- A scene with five point lights and no directional light. -/
def sceneP : List ObjSlot := [pObj 1, pObj 2, pObj 3, pObj 4, pObj 5]

/-- A context whose texture-unit queue is at capacity, units 0..7 bound to
live texture ids 1..8. -/
def ctxFull : EngineContext :=
  { defaultCtx with textures := [(0, 1), (1, 2), (2, 3), (3, 4), (4, 5), (5, 6), (6, 7), (7, 8)] }

/-- Ten texture-assign requests with pairwise distinct identities, all live:
more distinct textures than `MAX_TEXTURE_UNITS`. -/
def reqs10 : List (Nat × (Nat → Bool)) :=
  (List.range 10).map (fun i => (i + 100, fun _ => true))

/-- A material whose single texture is not ready. -/
def matNR : Material := { program := 1, render_queue := RenderQueue.Transparent, textures := [2] }

/-- A command drawing a surface of `matNR`. -/
def cmdNR : RenderCommand :=
  { surface := { buffer := 3, material := matNR }, model_m := [], cam_distance := some 0 }

/-- A command whose material has no textures and a distinct buffer. -/
def cmdOK : RenderCommand :=
  { surface :=
      { buffer := 4
        material := { program := 1, render_queue := RenderQueue.Transparent, textures := [] } }
    model_m := []
    cam_distance := some 0 }

/-- A context as `render_pass` produces it before the draw loop: fresh
caches and a populated main-light slot. -/
def ctxLit : EngineContext := { defaultCtx with main_light := some (pLight 1) }

/-- A mesh object with two surfaces, one Transparent and one Opaque, at
global translation (3, 0, 4). -/
def meshObjW : GameObject :=
  { active := true
    components :=
      [ComponentData.mesh
        { surfaces :=
            [ { buffer := 10
                material := { program := 0, render_queue := RenderQueue.Transparent, textures := [] } }
            , { buffer := 11
                material := { program := 0, render_queue := RenderQueue.Opaque, textures := [] } } ] }]
    transform := { global_matrix := [some 1], translation := (some 3, some 0, some 4) } }

/- Helper lemmas about the identity cache. -/

theorem getCache_setCache (k : CacheKind) (w : Option Nat) (ctx : EngineContext) :
    getCache k (setCache k w ctx) = w := by
  cases k <;> rfl

theorem switchCount_incSwitch (k : CacheKind) (ctx : EngineContext) :
    switchCount k (incSwitch k ctx) = switchCount k ctx + 1 := by
  cases k <;> rfl

theorem switchCount_setCache (k k2 : CacheKind) (w : Option Nat) (ctx : EngineContext) :
    switchCount k (setCache k2 w ctx) = switchCount k ctx := by
  cases k <;> cases k2 <;> rfl

theorem need_cache_false_of_hit (ctx : EngineContext) (k : CacheKind) (live : Nat → Bool)
    (p : Nat) (h : upgradeW live (getCache k ctx) = some p) :
    ctx.need_cache k live p = false := by
  unfold EngineContext.need_cache
  rw [h]
  simp

theorem prepareCacheSeq_hit (k : CacheKind) (live : Nat → Bool) (p : Nat) :
    ∀ (n : Nat) (ctx : EngineContext), upgradeW live (getCache k ctx) = some p →
      prepareCacheSeq k live (List.replicate n p) ctx = ctx := by
  intro n
  induction n with
  | zero => intro ctx _; rfl
  | succ m ih =>
      intro ctx h
      have hnc := need_cache_false_of_hit ctx k live p h
      rw [List.replicate_succ]
      show prepareCacheSeq k live (List.replicate m p)
        (ctx.prepare_cache k live p (cacheBindAction k (.ok ()))).2 = ctx
      rw [EngineContext.prepare_cache, hnc]
      exact ih ctx h

/-- Claim C3: a `prepare_cache` call whose resource identity equals the
live cached identity invokes no bind action and returns success (for every
bind action, the call is a no-op); a call for which a rebind is needed
(different identity, or dangling/expired cache) invokes the underlying bind
exactly once (the category's switch counter increments by one) and on
success records the new identity; hence a consecutive same-identity
sequence of length n ≥ 1 starting at a cache miss issues exactly one
underlying bind, regardless of n. -/
theorem prepare_cache_identity_dedup :
    (∀ (ctx : EngineContext) (k : CacheKind) (live : Nat → Bool) (p : Nat)
        (bind : EngineContext → AssetResult Unit × EngineContext),
        upgradeW live (getCache k ctx) = some p →
        ctx.prepare_cache k live p bind = (.ok (), ctx)) ∧
    (∀ (ctx : EngineContext) (k : CacheKind) (live : Nat → Bool) (p : Nat),
        ctx.need_cache k live p = true →
        ctx.prepare_cache k live p (cacheBindAction k (.ok ())) =
          (.ok (), setCache k (some p) (incSwitch k ctx)) ∧
        switchCount k (setCache k (some p) (incSwitch k ctx)) = switchCount k ctx + 1 ∧
        getCache k (setCache k (some p) (incSwitch k ctx)) = some p) ∧
    (∀ (ctx : EngineContext) (k : CacheKind) (live : Nat → Bool) (p : Nat) (n : Nat),
        live p = true → ctx.need_cache k live p = true → 1 ≤ n →
        switchCount k (prepareCacheSeq k live (List.replicate n p) ctx) =
          switchCount k ctx + 1) := by
  refine ⟨?_, ?_, ?_⟩
  · intro ctx k live p bind h
    rw [EngineContext.prepare_cache, need_cache_false_of_hit ctx k live p h]
    rfl
  · intro ctx k live p h
    refine ⟨?_, ?_, getCache_setCache k (some p) (incSwitch k ctx)⟩
    · rw [EngineContext.prepare_cache, h]
      rfl
    · rw [switchCount_setCache, switchCount_incSwitch]
  · intro ctx k live p n hlive h hn
    obtain ⟨m, rfl⟩ : ∃ m, n = m + 1 := ⟨n - 1, (Nat.succ_pred_eq_of_pos hn).symm⟩
    rw [List.replicate_succ]
    show switchCount k (prepareCacheSeq k live (List.replicate m p)
      (ctx.prepare_cache k live p (cacheBindAction k (.ok ()))).2) = switchCount k ctx + 1
    rw [EngineContext.prepare_cache, h]
    show switchCount k (prepareCacheSeq k live (List.replicate m p)
      (setCache k (some p) (incSwitch k ctx))) = switchCount k ctx + 1
    rw [prepareCacheSeq_hit k live p m _ (by rw [getCache_setCache]; simp [upgradeW, hlive]),
      switchCount_setCache, switchCount_incSwitch]

/-- Claim C3 witness: concrete instances of the three parts, over the empty
frame context and program category. -/
theorem prepare_cache_identity_dedup_witness :
    (({ defaultCtx with prog := some 5 } : EngineContext).prepare_cache .Prog (fun _ => true) 5
        (cacheBindAction .Prog (.error AssetError.NotReady)) =
      (.ok (), { defaultCtx with prog := some 5 })) ∧
    (defaultCtx.prepare_cache .Prog (fun _ => true) 5 (cacheBindAction .Prog (.ok ())) =
        (.ok (), setCache .Prog (some 5) (incSwitch .Prog defaultCtx)) ∧
      switchCount .Prog (setCache .Prog (some 5) (incSwitch .Prog defaultCtx)) =
        switchCount .Prog defaultCtx + 1 ∧
      getCache .Prog (setCache .Prog (some 5) (incSwitch .Prog defaultCtx)) = some 5) ∧
    switchCount .Prog (prepareCacheSeq .Prog (fun _ => true) (List.replicate 4 7) defaultCtx) =
      switchCount .Prog defaultCtx + 1 :=
  ⟨prepare_cache_identity_dedup.1 _ .Prog (fun _ => true) 5 _ (by decide),
   prepare_cache_identity_dedup.2.1 defaultCtx .Prog (fun _ => true) 5 (by decide),
   prepare_cache_identity_dedup.2.2 defaultCtx .Prog (fun _ => true) 7 4 (by decide) (by decide)
     (by decide)⟩

/-- Claim C7: when the underlying bind action fails, `prepare_cache`
propagates the error unmodified and the whole context — in particular the
cached identity of the category — is exactly as before the call. -/
theorem prepare_cache_error_no_update :
    ∀ (ctx : EngineContext) (k : CacheKind) (live : Nat → Bool) (p : Nat) (e : AssetError),
      ctx.need_cache k live p = true →
      ctx.prepare_cache k live p (cacheBindAction k (.error e)) = (.error e, ctx) := by
  intro ctx k live p e h
  rw [EngineContext.prepare_cache, h]
  rfl

/-- Claim C7 witness: a failing program bind on a context caching program 9
leaves the context caching program 9 and returns the error. -/
theorem prepare_cache_error_no_update_witness :
    ({ defaultCtx with prog := some 9 } : EngineContext).need_cache .Prog (fun _ => true) 5 =
      true ∧
    ({ defaultCtx with prog := some 9 } : EngineContext).prepare_cache .Prog (fun _ => true) 5
        (cacheBindAction .Prog (.error (AssetError.BindFailure 3))) =
      (.error (AssetError.BindFailure 3), { defaultCtx with prog := some 9 }) :=
  ⟨by decide,
   prepare_cache_error_no_update _ .Prog (fun _ => true) 5 (AssetError.BindFailure 3) (by decide)⟩

/- Helper lemmas about the texture-unit queue. -/

theorem removeFirstExpired_all_live (live : Nat → Bool) :
    ∀ ts : List (Nat × Nat), (∀ p ∈ ts, live p.2 = true) →
      removeFirstExpired live ts = none := by
  intro ts
  induction ts with
  | nil => intro _; rfl
  | cons e rest ih =>
      intro h
      have he : live e.2 = true := h e (List.mem_cons_self _ _)
      simp [removeFirstExpired, he, ih (fun p hp => h p (List.mem_cons_of_mem _ hp))]

theorem removeFirstExpired_split (live : Nat → Bool) :
    ∀ (l1 : List (Nat × Nat)) (e : Nat × Nat) (l2 : List (Nat × Nat)),
      (∀ p ∈ l1, live p.2 = true) → live e.2 = false →
      removeFirstExpired live (l1 ++ e :: l2) = some (e.1, l1 ++ l2) := by
  intro l1
  induction l1 with
  | nil =>
      intro e l2 _ he
      simp [removeFirstExpired, he]
  | cons a l1 ih =>
      intro e l2 h he
      have ha : live a.2 = true := h a (List.mem_cons_self _ _)
      simp [removeFirstExpired, ha, ih e l2 (fun p hp => h p (List.mem_cons_of_mem _ hp)) he]

theorem removeFirstExpired_perm (live : Nat → Bool) :
    ∀ (ts : List (Nat × Nat)) (u : Nat) (rest : List (Nat × Nat)),
      removeFirstExpired live ts = some (u, rest) →
      (ts.map Prod.fst).Perm (u :: rest.map Prod.fst) := by
  intro ts
  induction ts with
  | nil => intro u rest h; simp [removeFirstExpired] at h
  | cons e ts ih =>
      intro u rest h
      by_cases he : live e.2
      · rw [removeFirstExpired, if_pos he] at h
        cases hr : removeFirstExpired live ts with
        | none => rw [hr] at h; simp at h
        | some r =>
            rw [hr] at h
            have h' : r.1 = u ∧ e :: r.2 = rest := by simpa [Prod.ext_iff] using h
            obtain ⟨hu, hrest⟩ := h'
            subst hu
            subst hrest
            have hperm := ih r.1 r.2 (by rw [hr])
            have h1 : (List.map Prod.fst (e :: ts)).Perm (e.1 :: r.1 :: List.map Prod.fst r.2) := by
              simpa using hperm.cons e.1
            exact h1.trans (List.Perm.swap r.1 e.1 _)
      · rw [removeFirstExpired, if_neg he] at h
        have h' : e.1 = u ∧ ts = rest := by simpa [Prod.ext_iff] using h
        obtain ⟨hu, hrest⟩ := h'
        subst hu
        subst hrest
        exact List.Perm.refl _

theorem evictSlot_perm (live : Nat → Bool) (ts : List (Nat × Nat)) (h : ts ≠ []) :
    (ts.map Prod.fst).Perm ((evictSlot live ts).1 :: (evictSlot live ts).2.map Prod.fst) := by
  unfold evictSlot
  cases hr : removeFirstExpired live ts with
  | some r => exact removeFirstExpired_perm live ts r.1 r.2 (by rw [hr])
  | none =>
      cases ts with
      | nil => exact absurd rfl h
      | cons e rest => exact List.Perm.refl _

theorem evictSlot_length (live : Nat → Bool) (ts : List (Nat × Nat)) (h : ts ≠ []) :
    (evictSlot live ts).2.length + 1 = ts.length := by
  have hp := (evictSlot_perm live ts h).length_eq
  simp only [List.length_map, List.length_cons] at hp
  omega

/-- Claim C2 counterexample: with the allocator at capacity (8 live
entries) and a bind callback that fails, `prepare_cache_tex` propagates the
error but does NOT leave the ordered (unit, texture) collection unchanged:
the already-evicted front entry stays removed. -/
theorem tex_error_keeps_eviction_counterexample :
    (ctxFull.prepare_cache_tex (fun _ => true) 100
        (texBindAction (.error (AssetError.BindFailure 0)))).1 =
      .error (AssetError.BindFailure 0) ∧
    (ctxFull.prepare_cache_tex (fun _ => true) 100
        (texBindAction (.error (AssetError.BindFailure 0)))).2.textures ≠ ctxFull.textures := by
  decide

/-- Claim C2 as amended: when the bind callback fails, the error is
propagated and no new (unit, texture) pair is recorded; if the allocator was
below capacity the state is exactly unchanged, but if it was at capacity the
chosen eviction candidate has already been removed and stays removed (the
collection shrinks by one entry). -/
theorem tex_error_propagation :
    (∀ (ctx : EngineContext) (live : Nat → Bool) (tex : Nat) (e : AssetError),
        ctx.need_cache_tex live tex = none → ctx.textures.length < MAX_TEXTURE_UNITS →
        ctx.prepare_cache_tex live tex (texBindAction (.error e)) = (.error e, ctx)) ∧
    (∀ (ctx : EngineContext) (live : Nat → Bool) (tex : Nat) (e : AssetError),
        ctx.need_cache_tex live tex = none → MAX_TEXTURE_UNITS ≤ ctx.textures.length →
        ctx.prepare_cache_tex live tex (texBindAction (.error e)) =
          (.error e, { ctx with textures := (evictSlot live ctx.textures).2 }) ∧
        (evictSlot live ctx.textures).2.length + 1 = ctx.textures.length) := by
  constructor
  · intro ctx live tex e h hlen
    have hc : ¬ (MAX_TEXTURE_UNITS ≤ ctx.textures.length) := Nat.not_le.mpr hlen
    simp only [EngineContext.prepare_cache_tex, h, hc, if_false, texBindAction]
  · intro ctx live tex e h hcap
    have hne : ctx.textures ≠ [] := by
      intro h0
      rw [h0] at hcap
      simp [MAX_TEXTURE_UNITS] at hcap
    constructor
    · simp only [EngineContext.prepare_cache_tex, h, hcap, if_true, texBindAction]
    · exact evictSlot_length live ctx.textures hne

/-- Claim C2 (amended) witness: the below-capacity part at a one-entry
context, and the at-capacity part at the full context. -/
theorem tex_error_propagation_witness :
    (({ defaultCtx with textures := [(0, 1)] } : EngineContext).prepare_cache_tex
        (fun _ => true) 9 (texBindAction (.error AssetError.NotReady)) =
      (.error AssetError.NotReady, { defaultCtx with textures := [(0, 1)] })) ∧
    (ctxFull.prepare_cache_tex (fun _ => true) 100
        (texBindAction (.error (AssetError.BindFailure 0))) =
      (.error (AssetError.BindFailure 0),
        { ctxFull with textures := (evictSlot (fun _ => true) ctxFull.textures).2 }) ∧
      (evictSlot (fun _ => true) ctxFull.textures).2.length + 1 = ctxFull.textures.length) :=
  ⟨tex_error_propagation.1 _ (fun _ => true) 9 AssetError.NotReady (by decide) (by decide),
   tex_error_propagation.2 ctxFull (fun _ => true) 100 (AssetError.BindFailure 0) (by decide)
     (by decide)⟩

/-- Claim C4: the texture-unit allocator's policy.  (1) If an unexpired
entry matches the requested texture, its unit index is returned and no bind
callback is invoked (for every callback, the call is a pure hit).  (2) On a
miss below capacity the next unused index — the current entry count, which
under the reachable-state layout `units = 0..len` is not in use — is
allocated, and on bind success the new pair is recorded at the back.
(3) On a miss at capacity with some expired entry, the first expired entry
is evicted and its unit reused, and the new pair goes to the back.  (4) On a
miss at capacity with every entry live, the front (least-recently-assigned)
entry is evicted, FIFO, and the new pair goes to the back. -/
theorem tex_alloc_policy :
    (∀ (ctx : EngineContext) (live : Nat → Bool) (tex u : Nat)
        (bindF : EngineContext → Nat → AssetResult Unit × EngineContext),
        ctx.need_cache_tex live tex = some u →
        ctx.prepare_cache_tex live tex bindF = (.ok u, ctx)) ∧
    (∀ (ctx : EngineContext) (live : Nat → Bool) (tex : Nat),
        ctx.need_cache_tex live tex = none →
        ctx.textures.length < MAX_TEXTURE_UNITS →
        ctx.textures.map Prod.fst = List.range ctx.textures.length →
        ctx.prepare_cache_tex live tex (texBindAction (.ok ())) =
          (.ok ctx.textures.length,
            { ctx with
                textures := ctx.textures ++ [(ctx.textures.length, tex)]
                switch_tex := ctx.switch_tex + 1 }) ∧
        ctx.textures.length ∉ ctx.textures.map Prod.fst) ∧
    (∀ (ctx : EngineContext) (live : Nat → Bool) (tex : Nat) (l1 : List (Nat × Nat))
        (e : Nat × Nat) (l2 : List (Nat × Nat)),
        ctx.need_cache_tex live tex = none →
        MAX_TEXTURE_UNITS ≤ ctx.textures.length →
        ctx.textures = l1 ++ e :: l2 →
        (∀ p ∈ l1, live p.2 = true) → live e.2 = false →
        ctx.prepare_cache_tex live tex (texBindAction (.ok ())) =
          (.ok e.1,
            { ctx with
                textures := (l1 ++ l2) ++ [(e.1, tex)]
                switch_tex := ctx.switch_tex + 1 })) ∧
    (∀ (ctx : EngineContext) (live : Nat → Bool) (tex : Nat) (hd : Nat × Nat)
        (tl : List (Nat × Nat)),
        ctx.need_cache_tex live tex = none →
        MAX_TEXTURE_UNITS ≤ ctx.textures.length →
        ctx.textures = hd :: tl →
        (∀ p ∈ ctx.textures, live p.2 = true) →
        ctx.prepare_cache_tex live tex (texBindAction (.ok ())) =
          (.ok hd.1,
            { ctx with
                textures := tl ++ [(hd.1, tex)]
                switch_tex := ctx.switch_tex + 1 })) := by
  refine ⟨?_, ?_, ?_, ?_⟩
  · intro ctx live tex u bindF h
    simp only [EngineContext.prepare_cache_tex, h]
  · intro ctx live tex h hlen hrange
    have hc : ¬ (MAX_TEXTURE_UNITS ≤ ctx.textures.length) := Nat.not_le.mpr hlen
    constructor
    · simp only [EngineContext.prepare_cache_tex, h, hc, if_false, texBindAction]
    · intro hmem
      rw [hrange] at hmem
      exact absurd (List.mem_range.mp hmem) (lt_irrefl _)
  · intro ctx live tex l1 e l2 h hcap hsplit h1 he
    have hev : evictSlot live ctx.textures = (e.1, l1 ++ l2) := by
      rw [evictSlot.eq_def, hsplit, removeFirstExpired_split live l1 e l2 h1 he]
    simp only [EngineContext.prepare_cache_tex, h, hcap, if_true, hev, texBindAction]
  · intro ctx live tex hd tl h hcap hsplit hall
    have hev : evictSlot live ctx.textures = (hd.1, tl) := by
      rw [evictSlot.eq_def, removeFirstExpired_all_live live ctx.textures hall, hsplit]
    simp only [EngineContext.prepare_cache_tex, h, hcap, if_true, hev, texBindAction]

/-- Claim C4 witness: the four parts at concrete contexts — a hit on the
full context (with an erroring callback, showing it is not invoked); an
allocation at a two-entry context; an expired-slot eviction (texture id 4
expired) and a FIFO eviction on the full context. -/
theorem tex_alloc_policy_witness :
    (ctxFull.prepare_cache_tex (fun _ => true) 5
        (texBindAction (.error AssetError.NotReady)) = (.ok 4, ctxFull)) ∧
    (({ defaultCtx with textures := [(0, 1), (1, 2)] } : EngineContext).prepare_cache_tex
        (fun _ => true) 9 (texBindAction (.ok ())) =
      (.ok 2, { defaultCtx with textures := [(0, 1), (1, 2), (2, 9)], switch_tex := 1 })) ∧
    (ctxFull.prepare_cache_tex (fun t => !(t == 4)) 100 (texBindAction (.ok ())) =
      (.ok 3,
        { ctxFull with
            textures := ([(0, 1), (1, 2), (2, 3)] ++ [(4, 5), (5, 6), (6, 7), (7, 8)]) ++ [(3, 100)]
            switch_tex := 1 })) ∧
    (ctxFull.prepare_cache_tex (fun _ => true) 100 (texBindAction (.ok ())) =
      (.ok 0,
        { ctxFull with
            textures := [(1, 2), (2, 3), (3, 4), (4, 5), (5, 6), (6, 7), (7, 8)] ++ [(0, 100)]
            switch_tex := 1 })) := by
  refine ⟨?_, ?_, ?_, ?_⟩
  · exact tex_alloc_policy.1 ctxFull (fun _ => true) 5 4 _ (by decide)
  · have := (tex_alloc_policy.2.1 { defaultCtx with textures := [(0, 1), (1, 2)] }
      (fun _ => true) 9 (by decide) (by decide) (by decide)).1
    exact this.trans (by decide)
  · have := tex_alloc_policy.2.2.1 ctxFull (fun t => !(t == 4)) 100
      [(0, 1), (1, 2), (2, 3)] (3, 4) [(4, 5), (5, 6), (6, 7), (7, 8)]
      (by decide) (by decide) (by decide) (by decide) (by decide)
    exact this
  · have := tex_alloc_policy.2.2.2 ctxFull (fun _ => true) 100 (0, 1)
      [(1, 2), (2, 3), (3, 4), (4, 5), (5, 6), (6, 7), (7, 8)]
      (by decide) (by decide) (by decide) (by decide)
    exact this

theorem texInv_step (ctx : EngineContext) (live : Nat → Bool) (tex : Nat) (h : TexInv ctx) :
    TexInv (ctx.prepare_cache_tex live tex (texBindAction (.ok ()))).2 := by
  obtain ⟨hlen, hsmall, hnodup, hbound⟩ := h
  cases hnc : ctx.need_cache_tex live tex with
  | some t =>
      simp only [EngineContext.prepare_cache_tex, hnc]
      exact ⟨hlen, hsmall, hnodup, hbound⟩
  | none =>
      by_cases hcap : MAX_TEXTURE_UNITS ≤ ctx.textures.length
      · have hne : ctx.textures ≠ [] := by
          intro h0
          rw [h0] at hcap
          simp [MAX_TEXTURE_UNITS] at hcap
        have hperm := evictSlot_perm live ctx.textures hne
        have hlen8 : ctx.textures.length = MAX_TEXTURE_UNITS := le_antisymm hlen hcap
        simp only [EngineContext.prepare_cache_tex, hnc, hcap, if_true, texBindAction]
        unfold TexInv
        have hmain : (((evictSlot live ctx.textures).2 ++
            [((evictSlot live ctx.textures).1, tex)]).map Prod.fst).Perm
            (ctx.textures.map Prod.fst) := by
          simp only [List.map_append, List.map_cons, List.map_nil]
          exact (List.perm_append_singleton _ _).trans hperm.symm
        have hlennew : ((evictSlot live ctx.textures).2 ++
            [((evictSlot live ctx.textures).1, tex)]).length = ctx.textures.length := by
          have := hmain.length_eq
          simpa using this
        refine ⟨?_, ?_, ?_, ?_⟩
        · simpa [hlennew] using hlen
        · intro hlt
          simp only [hlennew, hlen8] at hlt
          exact absurd hlt (lt_irrefl _)
        · exact hmain.nodup_iff.mpr hnodup
        · intro u hu
          exact hbound u (hmain.mem_iff.mp hu)
      · have hr := hsmall (Nat.not_le.mp hcap)
        simp only [EngineContext.prepare_cache_tex, hnc, hcap, if_false, texBindAction]
        unfold TexInv
        have hmapnew : ((ctx.textures ++ [(ctx.textures.length, tex)]).map Prod.fst) =
            List.range (ctx.textures.length + 1) := by
          simp only [List.map_append, List.map_cons, List.map_nil, hr, List.range_succ]
        refine ⟨?_, ?_, ?_, ?_⟩
        · simpa using Nat.not_le.mp hcap
        · intro _
          simpa using hmapnew
        · simpa [hmapnew] using List.nodup_range _
        · intro u hu
          rw [hmapnew] at hu
          have := List.mem_range.mp hu
          have h8 := Nat.not_le.mp hcap
          omega

theorem texInv_assignSeq :
    ∀ (reqs : List (Nat × (Nat → Bool))) (ctx : EngineContext),
      TexInv ctx → TexInv (assignSeq reqs ctx) := by
  intro reqs
  induction reqs with
  | nil => intro ctx h; exact h
  | cons r rest ih =>
      intro ctx h
      exact ih _ (texInv_step ctx r.2 r.1 h)

/-- Claim C8: along any sequence of successful texture-unit assignments
within one frame — each request taken at its own liveness snapshot, so this
covers more distinct textures than `MAX_TEXTURE_UNITS` — the allocator's
collection keeps its unit indices pairwise distinct (so it never holds the
same unit for two simultaneously-live textures), and the reachable-state
invariant is preserved; the fresh per-pass context satisfies it. -/
theorem tex_units_pairwise_distinct :
    (∀ (reqs : List (Nat × (Nat → Bool))) (ctx : EngineContext), TexInv ctx →
        TexInv (assignSeq reqs ctx) ∧
        ((assignSeq reqs ctx).textures.map Prod.fst).Nodup) ∧
    TexInv defaultCtx := by
  constructor
  · intro reqs ctx h
    have hinv := texInv_assignSeq reqs ctx h
    exact ⟨hinv, hinv.2.2.1⟩
  · exact ⟨by decide, by decide, by decide, by decide⟩

/-- Claim C8 witness: ten pairwise-distinct live textures assigned from the
fresh context (two more than the unit capacity) leave pairwise-distinct
units. -/
theorem tex_units_pairwise_distinct_witness :
    TexInv defaultCtx ∧ ((assignSeq reqs10 defaultCtx).textures.map Prod.fst).Nodup :=
  ⟨by decide, (tex_units_pairwise_distinct.1 reqs10 defaultCtx (by decide)).2⟩

/- Helper lemmas about the Transparent-queue sort. -/

theorem fcmp_some (qx qc : Int) :
    fcmp (some qx) (some qc) =
      some (if qx < qc then Ordering.lt else if qc < qx then Ordering.gt else Ordering.eq) := rfl

theorem insertDesc_nil (c : RenderCommand) : insertDesc c [] = some [c] := rfl

theorem insertDesc_cons (c x : RenderCommand) (xs : List RenderCommand) :
    insertDesc c (x :: xs) =
      match fcmp x.cam_distance c.cam_distance with
      | none => none
      | some Ordering.gt => (insertDesc c xs).map (fun l => x :: l)
      | some _ => some (c :: x :: xs) := rfl

theorem insertDesc_cons_le (c x : RenderCommand) (xs : List RenderCommand) (o : Ordering)
    (ho : o ≠ Ordering.gt) (h : fcmp x.cam_distance c.cam_distance = some o) :
    insertDesc c (x :: xs) = some (c :: x :: xs) := by
  rw [insertDesc_cons, h]
  cases o with
  | lt => rfl
  | eq => rfl
  | gt => exact absurd rfl ho

theorem insertDesc_none_head (c x : RenderCommand) (xs : List RenderCommand)
    (h : x.cam_distance = none) : insertDesc c (x :: xs) = none := by
  rw [insertDesc_cons, h]
  cases c.cam_distance <;> rfl

theorem insertDesc_none_c (c x : RenderCommand) (xs : List RenderCommand)
    (h : c.cam_distance = none) : insertDesc c (x :: xs) = none := by
  rw [insertDesc_cons, h]
  cases hx : x.cam_distance <;> rfl

theorem sortLoop_nil (acc : List RenderCommand) : sortLoop acc [] = some acc := rfl

theorem sortLoop_cons (acc : List RenderCommand) (c : RenderCommand)
    (rest : List RenderCommand) :
    sortLoop acc (c :: rest) =
      match insertDesc c acc with
      | none => none
      | some acc2 => sortLoop acc2 rest := rfl

theorem insertDesc_spec (c : RenderCommand) :
    ∀ l : List RenderCommand, c.cam_distance ≠ none → (∀ x ∈ l, x.cam_distance ≠ none) →
      ∃ l2, insertDesc c l = some l2 ∧ l2.Perm (c :: l) ∧
        (∀ x ∈ l2, x.cam_distance ≠ none) ∧
        (List.Sorted dge l → List.Sorted dge l2) := by
  intro l
  induction l with
  | nil =>
      intro hc _
      refine ⟨[c], rfl, List.Perm.refl _, ?_, fun _ => List.sorted_singleton c⟩
      intro x hx
      rw [List.mem_singleton.mp hx]
      exact hc
  | cons x xs ih =>
      intro hc hfin
      have hx : x.cam_distance ≠ none := hfin x (List.mem_cons_self _ _)
      cases hqc : c.cam_distance with
      | none => exact absurd hqc hc
      | some qc =>
      cases hqx : x.cam_distance with
      | none => exact absurd hqx hx
      | some qx =>
      by_cases hgt : qc < qx
      · obtain ⟨l2, hl2, hperm, hfin2, hsort2⟩ :=
          ih hc (fun y hy => hfin y (List.mem_cons_of_mem _ hy))
        have hfc : fcmp x.cam_distance c.cam_distance = some Ordering.gt := by
          rw [hqx, hqc, fcmp_some, if_neg (asymm hgt), if_pos hgt]
        refine ⟨x :: l2, ?_, ?_, ?_, ?_⟩
        · rw [insertDesc_cons, hfc, hl2]
          rfl
        · exact (hperm.cons x).trans (List.Perm.swap c x xs)
        · intro y hy
          rcases List.mem_cons.mp hy with h | h
          · rw [h]; exact hx
          · exact hfin2 y h
        · intro hsorted
          rw [List.sorted_cons] at hsorted ⊢
          obtain ⟨hxall, hxs⟩ := hsorted
          refine ⟨?_, hsort2 hxs⟩
          intro b hb
          rcases List.mem_cons.mp (hperm.mem_iff.mp hb) with h | h
          · rw [h]
            show c.cam_distance.getD 0 ≤ x.cam_distance.getD 0
            simp only [hqx, hqc, Option.getD_some]
            exact le_of_lt hgt
          · exact hxall b h
      · have hfc : fcmp x.cam_distance c.cam_distance =
            some (if qx < qc then Ordering.lt else Ordering.eq) := by
          rw [hqx, hqc, fcmp_some, if_neg hgt]
        have ho : (if qx < qc then Ordering.lt else Ordering.eq) ≠ Ordering.gt := by
          by_cases hlt : qx < qc <;> simp [hlt]
        refine ⟨c :: x :: xs, insertDesc_cons_le c x xs _ ho hfc, List.Perm.refl _, ?_, ?_⟩
        · intro y hy
          rcases List.mem_cons.mp hy with h | h
          · rw [h]; exact hc
          · exact hfin y h
        · intro hsorted
          rw [List.sorted_cons] at hsorted ⊢
          obtain ⟨hxall, hxs⟩ := hsorted
          have hxc : dge c x := by
            show x.cam_distance.getD 0 ≤ c.cam_distance.getD 0
            simp only [hqx, hqc, Option.getD_some]
            exact le_of_not_lt hgt
          refine ⟨?_, List.sorted_cons.mpr ⟨hxall, hxs⟩⟩
          intro b hb
          rcases List.mem_cons.mp hb with h | h
          · rw [h]; exact hxc
          · exact le_trans (hxall b h) hxc

theorem sortLoop_spec :
    ∀ (rest acc : List RenderCommand),
      (∀ x ∈ acc, x.cam_distance ≠ none) → (∀ x ∈ rest, x.cam_distance ≠ none) →
      List.Sorted dge acc →
      ∃ l, sortLoop acc rest = some l ∧ l.Perm (acc ++ rest) ∧ List.Sorted dge l := by
  intro rest
  induction rest with
  | nil =>
      intro acc _ _ hsort
      exact ⟨acc, rfl, by simp, hsort⟩
  | cons ccmd rest ih =>
      intro acc hacc hrest hsort
      have hc : ccmd.cam_distance ≠ none := hrest ccmd (List.mem_cons_self _ _)
      obtain ⟨acc2, h1, hperm, hfin2, hsort2⟩ := insertDesc_spec ccmd acc hc hacc
      obtain ⟨l, hl, hlperm, hlsort⟩ :=
        ih acc2 hfin2 (fun y hy => hrest y (List.mem_cons_of_mem _ hy)) (hsort2 hsort)
      refine ⟨l, ?_, ?_, hlsort⟩
      · rw [sortLoop_cons, h1]
        exact hl
      · exact (hlperm.trans (hperm.append_right rest)).trans List.perm_middle.symm

theorem sortLoop_nan_acc (a : RenderCommand) (ha : a.cam_distance = none) :
    ∀ rest : List RenderCommand, rest ≠ [] → sortLoop [a] rest = none := by
  intro rest h
  cases rest with
  | nil => exact absurd rfl h
  | cons ccmd rest2 => rw [sortLoop_cons, insertDesc_none_head ccmd a [] ha]

theorem sortLoop_nan_rest :
    ∀ (rest acc : List RenderCommand), (∀ x ∈ acc, x.cam_distance ≠ none) → acc ≠ [] →
      (∃ x ∈ rest, x.cam_distance = none) → sortLoop acc rest = none := by
  intro rest
  induction rest with
  | nil =>
      intro acc _ _ h
      obtain ⟨x, hx, _⟩ := h
      exact absurd hx (List.not_mem_nil x)
  | cons ccmd rest ih =>
      intro acc hacc hne h
      by_cases hcn : ccmd.cam_distance = none
      · cases acc with
        | nil => exact absurd rfl hne
        | cons y ys => rw [sortLoop_cons, insertDesc_none_c ccmd y ys hcn]
      · obtain ⟨acc2, h1, hperm, hfin2, _⟩ := insertDesc_spec ccmd acc hcn hacc
        have hrest2 : ∃ x ∈ rest, x.cam_distance = none := by
          obtain ⟨x, hx, hxn⟩ := h
          rcases List.mem_cons.mp hx with heq | hmem
          · exact absurd (heq ▸ hxn) hcn
          · exact ⟨x, hmem, hxn⟩
        have hacc2ne : acc2 ≠ [] := by
          intro h0
          have hl := hperm.length_eq
          rw [h0] at hl
          simp at hl
        rw [sortLoop_cons, h1]
        exact ih acc2 hfin2 hacc2ne hrest2

/-- Claim C5: on a NaN-free command list the Transparent sort completes and
yields a permutation of the input ordered by descending squared camera
distance (`dge`, farthest first); the concrete [1, 9, 4] queue sorts to
[9, 4, 1]; and within `render_pass` only the Transparent queue is sorted —
Opaque and Skybox keep their gather order. -/
theorem transparent_sorted_descending :
    (∀ cmds : List RenderCommand, (∀ x ∈ cmds, x.cam_distance ≠ none) →
        ∃ l, sortCmds cmds = some l ∧ l.Perm cmds ∧ List.Sorted dge l) ∧
    (sortCmds [cmdDist 1 (some 1), cmdDist 2 (some 9), cmdDist 3 (some 4)] =
      some [cmdDist 2 (some 9), cmdDist 3 (some 4), cmdDist 1 (some 1)]) ∧
    (∀ (objs : List ObjSlot) (cam : Vector3) (tq : RenderQueueState),
        sort_by_cam_distance (gatherAll objs cam RenderQueue.Transparent) = some tq →
        ∃ rq2, renderPassQueues objs cam = some rq2 ∧
          rq2 RenderQueue.Opaque = gatherAll objs cam RenderQueue.Opaque ∧
          rq2 RenderQueue.Skybox = gatherAll objs cam RenderQueue.Skybox ∧
          rq2 RenderQueue.Transparent = tq) := by
  refine ⟨?_, by decide, ?_⟩
  · intro cmds hfin
    obtain ⟨l, h1, h2, h3⟩ := sortLoop_spec cmds [] (by simp) hfin List.sorted_nil
    exact ⟨l, h1, by simpa using h2, h3⟩
  · intro objs cam tq h
    refine ⟨fun k => if k == RenderQueue.Transparent then tq else gatherAll objs cam k,
      ?_, rfl, rfl, rfl⟩
    simp only [renderPassQueues]
    rw [h]

/-- Claim C5 witness: the general sort statement at the [1, 9, 4] queue, and
the pass-level statement at a small scene. -/
theorem transparent_sorted_descending_witness :
    (∃ l, sortCmds [cmdDist 1 (some 1), cmdDist 2 (some 9), cmdDist 3 (some 4)] = some l ∧
        l.Perm [cmdDist 1 (some 1), cmdDist 2 (some 9), cmdDist 3 (some 4)] ∧
        List.Sorted dge l) ∧
    (∃ rq2, renderPassQueues [ObjSlot.avail meshObjW] (some 0, some 0, some 0) = some rq2 ∧
        rq2 RenderQueue.Opaque =
          gatherAll [ObjSlot.avail meshObjW] (some 0, some 0, some 0) RenderQueue.Opaque ∧
        rq2 RenderQueue.Skybox =
          gatherAll [ObjSlot.avail meshObjW] (some 0, some 0, some 0) RenderQueue.Skybox ∧
        rq2 RenderQueue.Transparent =
          { depth_write := false, depth_test := true, depth_func := DepthTest.Less
            commands :=
              [{ surface :=
                   { buffer := 10
                     material :=
                       { program := 0, render_queue := RenderQueue.Transparent, textures := [] } }
                 model_m := [some 1]
                 cam_distance := some 25 }] }) :=
  ⟨transparent_sorted_descending.1 _ (by decide),
   transparent_sorted_descending.2.2 [ObjSlot.avail meshObjW] (some 0, some 0, some 0) _
     (by decide)⟩

/-- Claim C10 counterexample: a Transparent queue holding a single command
with NaN squared camera distance is sorted without any comparator call, so
`sort_by_cam_distance` completes instead of panicking. -/
theorem nan_singleton_counterexample :
    sortCmds [cmdDist 1 none] = some [cmdDist 1 none] ∧
    sort_by_cam_distance
        { depth_write := false, depth_test := true, depth_func := DepthTest.Less
          commands := [cmdDist 1 none] } =
      some
        { depth_write := false, depth_test := true, depth_func := DepthTest.Less
          commands := [cmdDist 1 none] } := by
  constructor <;> decide

/-- Claim C10 as amended: when the Transparent queue holds at least two
commands and any of them carries a NaN squared camera distance, the
comparator is invoked on a NaN and its `unwrap` panics (the sort diverges);
a queue with no NaN distances has a total comparison and the sort completes
without panicking.  (A singleton or empty queue never invokes the
comparator, so a lone NaN command does not panic.) -/
theorem nan_sort_behavior :
    (∀ cmds : List RenderCommand, 2 ≤ cmds.length → (∃ x ∈ cmds, x.cam_distance = none) →
        sortCmds cmds = none) ∧
    (∀ cmds : List RenderCommand, (∀ x ∈ cmds, x.cam_distance ≠ none) →
        (sortCmds cmds).isSome = true) := by
  constructor
  · intro cmds hlen h
    cases cmds with
    | nil => simp at hlen
    | cons a rest =>
        cases rest with
        | nil => simp at hlen
        | cons b rest2 =>
            rw [sortCmds, sortLoop_cons, insertDesc_nil]
            show sortLoop [a] (b :: rest2) = none
            by_cases han : a.cam_distance = none
            · exact sortLoop_nan_acc a han (b :: rest2) (by simp)
            · have hin : ∃ x ∈ b :: rest2, x.cam_distance = none := by
                obtain ⟨x, hx, hxn⟩ := h
                rcases List.mem_cons.mp hx with heq | hmem
                · exact absurd (heq ▸ hxn) han
                · exact ⟨x, hmem, hxn⟩
              refine sortLoop_nan_rest (b :: rest2) [a] ?_ (by simp) hin
              intro y hy
              rw [List.mem_singleton.mp hy]
              exact han
  · intro cmds hfin
    obtain ⟨l, h1, _, _⟩ := sortLoop_spec cmds [] (by simp) hfin List.sorted_nil
    rw [sortCmds, h1]
    rfl

/-- Claim C10 (amended) witness: a two-command queue with one NaN panics;
the NaN-free [1, 9, 4] queue completes. -/
theorem nan_sort_behavior_witness :
    sortCmds [cmdDist 1 none, cmdDist 2 (some 1)] = none ∧
    (sortCmds [cmdDist 1 (some 1), cmdDist 2 (some 9), cmdDist 3 (some 4)]).isSome = true :=
  ⟨nan_sort_behavior.1 _ (by decide) ⟨cmdDist 1 none, by decide, by decide⟩,
   nan_sort_behavior.2 _ (by decide)⟩

/- Helper lemma about command gathering. -/

theorem gatherFold_commands (o : GameObject) (cam : Vector3) :
    ∀ (ss : List MeshSurface) (rq : RenderQueueList) (k : RenderQueue),
      ((ss.foldl
          (fun acc surface => pushCmd acc surface.material.render_queue (mkCmd o cam surface))
          rq) k).commands =
        (rq k).commands ++
          (ss.filter (fun s => s.material.render_queue == k)).map (mkCmd o cam) := by
  intro ss
  induction ss with
  | nil => intro rq k; simp
  | cons s ss ih =>
      intro rq k
      rw [List.foldl_cons, ih]
      by_cases hk : s.material.render_queue = k
      · subst hk
        rw [List.filter_cons_of_pos (by simp), List.map_cons]
        have hp : (pushCmd rq s.material.render_queue (mkCmd o cam s))
            s.material.render_queue =
            { rq s.material.render_queue with
                commands := (rq s.material.render_queue).commands ++ [mkCmd o cam s] } := by
          simp [pushCmd]
        rw [hp]
        simp
      · rw [List.filter_cons_of_neg (by simp [hk])]
        have hp : (pushCmd rq s.material.render_queue (mkCmd o cam s)) k = rq k := by
          simp [pushCmd, Ne.symm hk]
        rw [hp]

/-- Claim C9: an inactive object contributes no commands; an object without
a Mesh component contributes no commands; and an active object with a Mesh
component appends, for every surface of that mesh, exactly one command —
carrying that surface, the world matrix resolved at gather time and the
squared camera distance to the object's global translation — at the back of
the queue named by the surface's material's queue tag, in surface order. -/
theorem gather_commands_spec :
    (∀ (o : GameObject) (cam : Vector3) (rq : RenderQueueList),
        o.active = false → gather_render_commands o cam rq = rq) ∧
    (∀ (o : GameObject) (cam : Vector3) (rq : RenderQueueList),
        o.find_component .KMesh = none → gather_render_commands o cam rq = rq) ∧
    (∀ (o : GameObject) (cam : Vector3) (rq : RenderQueueList) (m : Mesh),
        o.active = true → o.find_component .KMesh = some (ComponentData.mesh m) →
        ∀ k : RenderQueue,
          (gather_render_commands o cam rq k).commands =
            (rq k).commands ++
              (m.surfaces.filter (fun s => s.material.render_queue == k)).map (mkCmd o cam)) := by
  refine ⟨?_, ?_, ?_⟩
  · intro o cam rq h
    simp [gather_render_commands, h]
  · intro o cam rq h
    unfold gather_render_commands
    cases ha : o.active with
    | false => simp
    | true => simp [h]
  · intro o cam rq m ha hm k
    unfold gather_render_commands
    rw [ha, hm]
    simpa using gatherFold_commands o cam m.surfaces rq k

/-- Claim C9 witness: the three parts at a two-surface mesh object (one
Transparent surface, one Opaque), its inactive variant, and a mesh-less
object. -/
theorem gather_commands_spec_witness :
    (gather_render_commands { meshObjW with active := false } (some 0, some 0, some 0)
        RenderQueueList.new = RenderQueueList.new) ∧
    (gather_render_commands
        { active := true
          components := [pLight 1]
          transform := { global_matrix := [], translation := (some 0, some 0, some 0) } }
        (some 0, some 0, some 0) RenderQueueList.new = RenderQueueList.new) ∧
    ∀ k : RenderQueue,
      (gather_render_commands meshObjW (some 0, some 0, some 0) RenderQueueList.new k).commands =
        (RenderQueueList.new k).commands ++
          (([ { buffer := 10
                material :=
                  { program := 0, render_queue := RenderQueue.Transparent, textures := [] } }
            , { buffer := 11
                material :=
                  { program := 0, render_queue := RenderQueue.Opaque, textures := [] } } ] :
            List MeshSurface).filter (fun s => s.material.render_queue == k)).map
            (mkCmd meshObjW (some 0, some 0, some 0)) :=
  ⟨gather_commands_spec.1 _ _ RenderQueueList.new rfl,
   gather_commands_spec.2.1 _ _ RenderQueueList.new (by decide),
   gather_commands_spec.2.2 meshObjW _ RenderQueueList.new _ rfl rfl⟩

/-- Claim C6: in the per-queue draw loop, a command whose material setup
fails with `NotReady` is skipped silently — the loop on that command equals
the loop on the remaining commands, so it produces no draw event and the
subsequent commands are still processed — while a material-setup failure
other than `NotReady` aborts the pass with a panic; and a material whose
(sole, uncached) texture reports not-ready makes `setup_material` return
`NotReady` after a successful program bind. -/
theorem notready_skips_continue :
    (∀ (pr tr br : Nat → AssetResult Unit) (live : Nat → Bool) (cmd : RenderCommand)
        (rest : List RenderCommand) (ctx c2 : EngineContext),
        setup_material pr tr live cmd.surface.material ctx =
          some (.error AssetError.NotReady, c2) →
        renderLoop pr tr br live (cmd :: rest) ctx = renderLoop pr tr br live rest c2) ∧
    (∀ (pr tr br : Nat → AssetResult Unit) (live : Nat → Bool) (cmd : RenderCommand)
        (rest : List RenderCommand) (ctx c2 : EngineContext) (e : AssetError),
        setup_material pr tr live cmd.surface.material ctx = some (.error e, c2) →
        e ≠ AssetError.NotReady →
        renderLoop pr tr br live (cmd :: rest) ctx = none) ∧
    (∀ (pr tr : Nat → AssetResult Unit) (live : Nat → Bool) (m : Material) (t : Nat),
        m.textures = [t] → tr t = .error AssetError.NotReady → pr m.program = .ok () →
        live m.program = true →
        setup_material pr tr live m defaultCtx =
          some (.error AssetError.NotReady,
            { defaultCtx with prog := some m.program, switch_prog := 1 })) := by
  refine ⟨?_, ?_, ?_⟩
  · intro pr tr br live cmd rest ctx c2 h
    rw [renderLoop, h]
  · intro pr tr br live cmd rest ctx c2 e h he
    rw [renderLoop, h]
    cases e with
    | NotReady => exact absurd rfl he
    | BindFailure code => rfl
  · intro pr tr live m t ht htr hpr hlive
    obtain ⟨mp, mq, mts⟩ := m
    simp only at ht htr hpr hlive
    subst ht
    simp [setup_material, EngineContext.prepare_cache, EngineContext.need_cache, upgradeW,
      getCache, setCache, defaultCtx, hpr, htr, hlive, cacheBindAction, incSwitch,
      materialBindTexs, EngineContext.prepare_cache_tex, EngineContext.need_cache_tex,
      texBindAction, MAX_TEXTURE_UNITS]

/-- Claim C6 witness: the three parts at a concrete queue — a command with a
not-ready texture followed by a ready command; the same command under a
fatally failing texture bind; and the not-ready material itself.  The last
conjunct runs the loop end to end: the not-ready command yields no draw
event while the subsequent command still draws. -/
theorem notready_skips_continue_witness :
    (renderLoop (fun _ => .ok ()) (fun _ => .error AssetError.NotReady) (fun _ => .ok ())
        (fun _ => true) [cmdNR, cmdOK] ctxLit =
      renderLoop (fun _ => .ok ()) (fun _ => .error AssetError.NotReady) (fun _ => .ok ())
        (fun _ => true) [cmdOK] { ctxLit with prog := some 1, switch_prog := 1 }) ∧
    (renderLoop (fun _ => .ok ()) (fun _ => .error (AssetError.BindFailure 7)) (fun _ => .ok ())
        (fun _ => true) [cmdNR, cmdOK] ctxLit = none) ∧
    (setup_material (fun _ => .ok ()) (fun _ => .error AssetError.NotReady) (fun _ => true)
        matNR defaultCtx =
      some (.error AssetError.NotReady, { defaultCtx with prog := some 1, switch_prog := 1 })) ∧
    ((renderLoop (fun _ => .ok ()) (fun _ => .error AssetError.NotReady) (fun _ => .ok ())
        (fun _ => true) [cmdNR, cmdOK] ctxLit).map Prod.snd = some [cmdOK.surface]) :=
  ⟨notready_skips_continue.1 _ _ _ _ cmdNR [cmdOK] ctxLit _ (by decide),
   notready_skips_continue.2.1 _ _ _ _ cmdNR [cmdOK] ctxLit
     { ctxLit with prog := some 1, switch_prog := 1 } (AssetError.BindFailure 7)
     (by decide) (by decide),
   notready_skips_continue.2.2 _ _ _ matNR 2 rfl rfl rfl rfl,
   by decide⟩

/-- Claim C1: evaluation of `prepare_ctx` at a scene holding five point
lights and no directional light.  The code selects the FIRST Light component
of any variant as the main light — here a Point light, later bound to the
`uDirectionalLight` uniform — and does not synthesize the default
directional light, contradicting the claim; the point-light list does
collect the first four point lights in discovery order as claimed. -/
theorem main_light_any_variant_eval :
    (prepare_ctx sceneP defaultCtx).main_light = some (pLight 1) ∧
    comIsDirectional (prepare_ctx sceneP defaultCtx).main_light = false ∧
    (prepare_ctx sceneP defaultCtx).main_light ≠
      some (ComponentData.light (Light.Directional DirectionalData.default)) ∧
    (prepare_ctx sceneP defaultCtx).point_lights =
      [pLight 1, pLight 2, pLight 3, pLight 4] := by
  refine ⟨by decide, by decide, by decide, by decide⟩

end Unrust
